import Mathlib

/-!
Verification of the `networkCommon` repository (schema tables, network
definition objects, logging manager) against its natural-language
specification.

The Python sources are shallowly embedded:
* Python runtime values become the inductive `PyVal` (floats are modelled as
  exact fractions `Flt`, which covers every float literal occurring in the
  schema tables);
* the schema tables of `schema.py` become Lean association lists of
  `FieldSpec`s, keeping the source names;
* the classes of `network_definition.py` become structures, with `__init__`
  keyword binding modelled by explicit `call…` functions;
* the `LoggingManager` class of `logging_manager.py` becomes a state machine
  over `LMState`.
-/

/-- The Python types used in `type` constraints of the schema tables.
`noneT` is `type(None)`. -/
inductive PyType where
  | int
  | float
  | bool
  | dict
  | list
  | set
  | tuple
  | str
  | noneT
deriving DecidableEq

/-- Exact fraction standing in for a Python float literal.  Every float in
the schema tables (`0.0`, `1.0`, `0.1`, `1e-5`) is exactly representable;
no floating-point rounding is modelled because none occurs. -/
structure Flt where
  num : Int
  den : Nat
deriving DecidableEq

mutual

/-- A Python runtime value, as needed by the schema tables and entities.
Containers use the mutually defined `PyList` / `PyDict` spines. -/
inductive PyVal where
  | none
  | bool (b : Bool)
  | int (n : Int)
  | float (f : Flt)
  | str (s : String)
  | list (xs : PyList)
  | tuple (xs : PyList)
  | set (xs : PyList)
  | dict (xs : PyDict)

/-- Spine of a Python list / tuple / set value. -/
inductive PyList where
  | nil
  | cons (head : PyVal) (tail : PyList)

/-- Spine of a Python dict value (key-value pairs in insertion order). -/
inductive PyDict where
  | nil
  | cons (key : PyVal) (val : PyVal) (tail : PyDict)

end

deriving instance DecidableEq for PyVal, PyList, PyDict

/-- Association-list lookup, modelling Python `d.get(k)` / `d[k]`. -/
def lookupA {κ β : Type} [DecidableEq κ] (k : κ) : List (κ × β) → Option β
  | [] => Option.none
  | p :: ps => if p.1 = k then Option.some p.2 else lookupA k ps

/-- Association-list update, modelling Python `d[k] = v` (replace the first
binding of `k`, or append a fresh one). -/
def setA {κ β : Type} [DecidableEq κ] (k : κ) (v : β) : List (κ × β) → List (κ × β)
  | [] => [(k, v)]
  | p :: ps => if p.1 = k then (k, v) :: ps else p :: setA k v ps

/-- Numeric range constraint `(lo, hi)`, inclusive.  `hi = none` stands for
`math.inf`, the only infinite bound occurring in the tables. -/
structure NumRange where
  lo : Flt
  hi : Option Flt
deriving DecidableEq

/-- One field specification of a schema table: the keys `type`, `default`,
`required`, `inferred`, `range`, `tuple_len` of the Python spec dicts.
`default = none` means the `default` key is absent; a declared Python
`None` default is `some PyVal.none`. -/
structure FieldSpec where
  type : List PyType := []
  default : Option PyVal := Option.none
  required : Bool := false
  inferred : Bool := false
  range : Option NumRange := Option.none
  tuple_len : Option Nat := Option.none
deriving DecidableEq

/-- Modelled from the spec: integer constants from `semantic_codes.py`, which
is imported by `schema.py` but not included in the sources.  Only their
distinctness matters; the values are arbitrary distinct integers. -/
def codes.ACT_IDENTITY : Int := 0

def codes.LAYER_LINEAR : Int := 1
def codes.LAYER_CONV1D : Int := 2
def codes.LAYER_CONV2D : Int := 3
def codes.LAYER_CONV3D : Int := 4
def codes.LAYER_LSTM : Int := 5
def codes.LAYER_BATCHNORM1D : Int := 6
def codes.LAYER_GROUPNORM : Int := 7

def codes.PARAM_OUT_FEATURES : Int := 101
def codes.PARAM_IN_FEATURES : Int := 102
def codes.PARAM_OUT_CHANNELS : Int := 103
def codes.PARAM_KERNEL_SIZE : Int := 104
def codes.PARAM_STRIDE : Int := 105
def codes.PARAM_PADDING : Int := 106
def codes.PARAM_DILATION : Int := 107
def codes.PARAM_GROUPS : Int := 108
def codes.PARAM_IN_CHANNELS : Int := 109
def codes.PARAM_HIDDEN_SIZE : Int := 110
def codes.PARAM_NUM_LAYERS : Int := 111
def codes.PARAM_DROPOUT : Int := 112
def codes.PARAM_INPUT_SIZE : Int := 113
def codes.PARAM_NUM_FEATURES : Int := 114
def codes.PARAM_EPS : Int := 115
def codes.PARAM_MOMENTUM : Int := 116
def codes.PARAM_NUM_GROUPS : Int := 117

def codes.FLAG_FREEZE : Int := 201
def codes.FLAG_BIAS : Int := 202
def codes.FLAG_BATCH_FIRST : Int := 203
def codes.FLAG_BIDIRECTIONAL : Int := 204
def codes.FLAG_AFFINE : Int := 205
def codes.FLAG_TRACK_RUNNING_STATS : Int := 206

def codes.BLOCK_SEQUENTIAL : Int := 301
def codes.MEM_FIFO : Int := 311
def codes.PRED_MODEL_LINEAR : Int := 321
def codes.METRIC_MSE : Int := 331
def codes.NOVELTY_PRED_ERROR_BASED : Int := 341

/-- `COMPONENT_CODE_TO_NAME` of `schema.py` (lines 15-27). -/
def COMPONENT_CODE_TO_NAME : List (String × String) :=
  [ ("01", "Block"),
    ("02", "Layer"),
    ("03", "Input"),
    ("04", "Output"),
    ("05", "MemoryBuffer"),
    ("06", "Predictor"),
    ("07", "Comparator"),
    ("08", "NoveltyModule"),
    ("09", "IntrinsicReward"),
    ("10", "PolicyHead"),
    ("11", "PlasticityRuleDef") ]

/-- `BASE_LAYER_SCHEMA` of `schema.py` (lines 30-63). -/
def BASE_LAYER_SCHEMA : List (String × FieldSpec) :=
  [ ("layer_idx", { type := [.int] }),
    ("type", { type := [.int] }),
    ("params", { type := [.dict], default := Option.some (.dict .nil) }),
    ("skip_connections", { type := [.list], default := Option.some (.list .nil) }),
    ("activation", { type := [.int], default := Option.some (.int codes.ACT_IDENTITY) }),
    ("dropout", { type := [.float, .noneT], default := Option.some .none,
                  range := Option.some ⟨⟨0, 1⟩, Option.some ⟨1, 1⟩⟩ }),
    ("flags", { type := [.set], default := Option.some (.set .nil) }),
    ("bias", { type := [.bool], default := Option.some (.bool true) }),
    ("weight_init", { type := [.dict, .noneT], default := Option.some .none }),
    ("bias_init", { type := [.dict, .noneT], default := Option.some .none }),
    ("shape_constraints", { type := [.dict, .noneT], default := Option.some .none }),
    ("shape_references", { type := [.dict, .noneT], default := Option.some .none }),
    ("shape_adapter", { type := [.dict, .noneT], default := Option.some .none }),
    ("reshape", { type := [.dict, .noneT], default := Option.some .none }),
    ("shared_weights", { type := [.dict, .noneT], default := Option.some .none }),
    ("weight_scale", { type := [.float, .noneT], default := Option.some .none }),
    ("sparsity", { type := [.float, .noneT], default := Option.some .none,
                   range := Option.some ⟨⟨0, 1⟩, Option.some ⟨1, 1⟩⟩ }),
    ("plasticity_rules", { type := [.list, .noneT], default := Option.some .none }),
    ("plasticity_rate", { type := [.float, .noneT], default := Option.some .none }),
    ("conv_params", { type := [.dict, .noneT], default := Option.some .none }),
    ("lstm_params", { type := [.dict, .noneT], default := Option.some .none }),
    ("batchnorm_params", { type := [.dict, .noneT], default := Option.some .none }),
    ("maxpool_params", { type := [.dict, .noneT], default := Option.some .none }),
    ("attention", { type := [.dict, .noneT], default := Option.some .none }),
    ("dynamic_routing", { type := [.dict, .noneT], default := Option.some .none }),
    ("temporal_aggregation", { type := [.dict, .noneT], default := Option.some .none }),
    ("stateful", { type := [.dict, .noneT], default := Option.some .none }),
    ("recurrent_cell", { type := [.dict, .noneT], default := Option.some .none }),
    ("initial_state", { type := [.dict, .noneT], default := Option.some .none }),
    ("shape_checks", { type := [.dict, .noneT], default := Option.some .none }),
    ("raw_slices", { type := [.dict, .noneT], default := Option.some .none }) ]

/-- A partial field specification used as an override in
`LAYER_SPECIFIC_SCHEMAS`: the attributes the override dict declares.  In the
source every override declares only a `default` (e.g. `{"default": True}`). -/
structure FieldOverride where
  typeO : Option (List PyType) := Option.none
  defaultO : Option PyVal := Option.none
  requiredO : Option Bool := Option.none
  inferredO : Option Bool := Option.none
  rangeO : Option NumRange := Option.none
  tuple_lenO : Option Nat := Option.none
deriving DecidableEq

/-- One entry of `LAYER_SPECIFIC_SCHEMAS`: the `inherits` pointer, the
per-field override dicts, the `params` sub-schema (keyed by parameter codes)
and the `allowed_flags` whitelist. -/
structure LayerTypeSchema where
  inherits : List (String × FieldSpec)
  overrides : List (String × FieldOverride)
  params : List (Int × FieldSpec)
  allowed_flags : List Int
deriving DecidableEq

/-- The `codes.LAYER_LINEAR` entry of `LAYER_SPECIFIC_SCHEMAS`
(`schema.py` lines 67-75). -/
def LINEAR_SCHEMA : LayerTypeSchema :=
  { inherits := BASE_LAYER_SCHEMA,
    overrides := [("bias", { defaultO := Option.some (.bool true) })],
    params :=
      [ (codes.PARAM_OUT_FEATURES, { type := [.int], required := true }),
        (codes.PARAM_IN_FEATURES, { type := [.int], inferred := true }) ],
    allowed_flags := [codes.FLAG_FREEZE, codes.FLAG_BIAS] }

/-- The `codes.LAYER_CONV1D` entry of `LAYER_SPECIFIC_SCHEMAS`
(`schema.py` lines 76-89). -/
def CONV1D_SCHEMA : LayerTypeSchema :=
  { inherits := BASE_LAYER_SCHEMA,
    overrides := [("bias", { defaultO := Option.some (.bool true) })],
    params :=
      [ (codes.PARAM_OUT_CHANNELS, { type := [.int], required := true }),
        (codes.PARAM_KERNEL_SIZE,
          { type := [.int, .tuple], required := true, tuple_len := Option.some 1 }),
        (codes.PARAM_STRIDE,
          { type := [.int, .tuple], default := Option.some (.int 1), tuple_len := Option.some 1 }),
        (codes.PARAM_PADDING,
          { type := [.int, .tuple, .str], default := Option.some (.int 0), tuple_len := Option.some 1 }),
        (codes.PARAM_DILATION,
          { type := [.int, .tuple], default := Option.some (.int 1), tuple_len := Option.some 1 }),
        (codes.PARAM_GROUPS, { type := [.int], default := Option.some (.int 1) }),
        (codes.PARAM_IN_CHANNELS, { type := [.int], inferred := true }) ],
    allowed_flags := [codes.FLAG_FREEZE, codes.FLAG_BIAS] }

/-- The `codes.LAYER_CONV2D` entry of `LAYER_SPECIFIC_SCHEMAS`
(`schema.py` lines 91-104). -/
def CONV2D_SCHEMA : LayerTypeSchema :=
  { inherits := BASE_LAYER_SCHEMA,
    overrides := [("bias", { defaultO := Option.some (.bool true) })],
    params :=
      [ (codes.PARAM_OUT_CHANNELS, { type := [.int], required := true }),
        (codes.PARAM_KERNEL_SIZE,
          { type := [.int, .tuple], required := true, tuple_len := Option.some 2 }),
        (codes.PARAM_STRIDE,
          { type := [.int, .tuple],
            default := Option.some (.tuple (.cons (.int 1) (.cons (.int 1) .nil))),
            tuple_len := Option.some 2 }),
        (codes.PARAM_PADDING,
          { type := [.int, .tuple, .str], default := Option.some (.int 0), tuple_len := Option.some 2 }),
        (codes.PARAM_DILATION,
          { type := [.int, .tuple],
            default := Option.some (.tuple (.cons (.int 1) (.cons (.int 1) .nil))),
            tuple_len := Option.some 2 }),
        (codes.PARAM_GROUPS, { type := [.int], default := Option.some (.int 1) }),
        (codes.PARAM_IN_CHANNELS, { type := [.int], inferred := true }) ],
    allowed_flags := [codes.FLAG_FREEZE, codes.FLAG_BIAS] }

/-- The `codes.LAYER_CONV3D` entry of `LAYER_SPECIFIC_SCHEMAS`
(`schema.py` lines 105-118). -/
def CONV3D_SCHEMA : LayerTypeSchema :=
  { inherits := BASE_LAYER_SCHEMA,
    overrides := [("bias", { defaultO := Option.some (.bool true) })],
    params :=
      [ (codes.PARAM_OUT_CHANNELS, { type := [.int], required := true }),
        (codes.PARAM_KERNEL_SIZE,
          { type := [.int, .tuple], required := true, tuple_len := Option.some 3 }),
        (codes.PARAM_STRIDE,
          { type := [.int, .tuple],
            default := Option.some (.tuple (.cons (.int 1) (.cons (.int 1) (.cons (.int 1) .nil)))),
            tuple_len := Option.some 3 }),
        (codes.PARAM_PADDING,
          { type := [.int, .tuple, .str], default := Option.some (.int 0), tuple_len := Option.some 3 }),
        (codes.PARAM_DILATION,
          { type := [.int, .tuple],
            default := Option.some (.tuple (.cons (.int 1) (.cons (.int 1) (.cons (.int 1) .nil)))),
            tuple_len := Option.some 3 }),
        (codes.PARAM_GROUPS, { type := [.int], default := Option.some (.int 1) }),
        (codes.PARAM_IN_CHANNELS, { type := [.int], inferred := true }) ],
    allowed_flags := [codes.FLAG_FREEZE, codes.FLAG_BIAS] }

/-- The `codes.LAYER_LSTM` entry of `LAYER_SPECIFIC_SCHEMAS`
(`schema.py` lines 119-129). -/
def LSTM_SCHEMA : LayerTypeSchema :=
  { inherits := BASE_LAYER_SCHEMA,
    overrides := [("bias", { defaultO := Option.some (.bool true) })],
    params :=
      [ (codes.PARAM_HIDDEN_SIZE, { type := [.int], required := true }),
        (codes.PARAM_NUM_LAYERS, { type := [.int], default := Option.some (.int 1) }),
        (codes.PARAM_DROPOUT,
          { type := [.float], default := Option.some (.float ⟨0, 1⟩),
            range := Option.some ⟨⟨0, 1⟩, Option.some ⟨1, 1⟩⟩ }),
        (codes.PARAM_INPUT_SIZE, { type := [.int], inferred := true }) ],
    allowed_flags :=
      [codes.FLAG_FREEZE, codes.FLAG_BIAS, codes.FLAG_BATCH_FIRST, codes.FLAG_BIDIRECTIONAL] }

/-- The `codes.LAYER_BATCHNORM1D` entry of `LAYER_SPECIFIC_SCHEMAS`
(`schema.py` lines 130-139). -/
def BATCHNORM1D_SCHEMA : LayerTypeSchema :=
  { inherits := BASE_LAYER_SCHEMA,
    overrides := [("bias", { defaultO := Option.some .none })],
    params :=
      [ (codes.PARAM_NUM_FEATURES, { type := [.int], inferred := true }),
        (codes.PARAM_EPS, { type := [.float], default := Option.some (.float ⟨1, 100000⟩) }),
        (codes.PARAM_MOMENTUM,
          { type := [.float, .noneT], default := Option.some (.float ⟨1, 10⟩) }) ],
    allowed_flags := [codes.FLAG_AFFINE, codes.FLAG_TRACK_RUNNING_STATS] }

/-- The `codes.LAYER_GROUPNORM` entry of `LAYER_SPECIFIC_SCHEMAS`
(`schema.py` lines 140-149). -/
def GROUPNORM_SCHEMA : LayerTypeSchema :=
  { inherits := BASE_LAYER_SCHEMA,
    overrides := [("bias", { defaultO := Option.some .none })],
    params :=
      [ (codes.PARAM_NUM_GROUPS, { type := [.int], required := true }),
        (codes.PARAM_NUM_FEATURES, { type := [.int], inferred := true }),
        (codes.PARAM_EPS, { type := [.float], default := Option.some (.float ⟨1, 100000⟩) }) ],
    allowed_flags := [codes.FLAG_AFFINE] }

/-- `LAYER_SPECIFIC_SCHEMAS` of `schema.py` (lines 66-151). -/
def LAYER_SPECIFIC_SCHEMAS : List (Int × LayerTypeSchema) :=
  [ (codes.LAYER_LINEAR, LINEAR_SCHEMA),
    (codes.LAYER_CONV1D, CONV1D_SCHEMA),
    (codes.LAYER_CONV2D, CONV2D_SCHEMA),
    (codes.LAYER_CONV3D, CONV3D_SCHEMA),
    (codes.LAYER_LSTM, LSTM_SCHEMA),
    (codes.LAYER_BATCHNORM1D, BATCHNORM1D_SCHEMA),
    (codes.LAYER_GROUPNORM, GROUPNORM_SCHEMA) ]

/-- The `"Block"` entry of `COMPONENT_SCHEMA` (`schema.py` lines 155-164). -/
def BLOCK_SCHEMA : List (String × FieldSpec) :=
  [ ("type", { type := [.int], default := Option.some (.int codes.BLOCK_SEQUENTIAL) }),
    ("connections", { type := [.list], default := Option.some (.list .nil) }),
    ("attributes", { type := [.dict], default := Option.some (.dict .nil) }),
    ("flags", { type := [.set], default := Option.some (.set .nil) }),
    ("subblocks", { type := [.list], default := Option.some (.list .nil) }),
    ("default_params", { type := [.dict], default := Option.some (.dict .nil) }),
    ("shape_info", { type := [.dict, .noneT], default := Option.some .none }),
    ("sequence_params", { type := [.dict, .noneT], default := Option.some .none }) ]

/-- The `"Input"` entry of `COMPONENT_SCHEMA` (`schema.py` lines 166-172). -/
def INPUT_SCHEMA : List (String × FieldSpec) :=
  [ ("data_type", { type := [.int], default := Option.some (.int 0) }),
    ("shape", { type := [.list, .tuple], required := true }),
    ("attributes", { type := [.dict], default := Option.some (.dict .nil) }),
    ("connections", { type := [.list], default := Option.some (.list .nil) }),
    ("shape_derivation", { type := [.dict, .noneT], default := Option.some .none }) ]

/-- The `"Output"` entry of `COMPONENT_SCHEMA` (`schema.py` lines 173-179). -/
def OUTPUT_SCHEMA : List (String × FieldSpec) :=
  [ ("data_type", { type := [.int], default := Option.some (.int 0) }),
    ("shape", { type := [.list, .tuple, .noneT], default := Option.some .none }),
    ("attributes", { type := [.dict], default := Option.some (.dict .nil) }),
    ("connections", { type := [.list], required := true }),
    ("shape_derivation", { type := [.dict, .noneT], default := Option.some .none }) ]

/-- `COMPONENT_SCHEMA` of `schema.py` (lines 154-220). -/
def COMPONENT_SCHEMA : List (String × List (String × FieldSpec)) :=
  [ ("Block", BLOCK_SCHEMA),
    ("Layer", BASE_LAYER_SCHEMA),
    ("Input", INPUT_SCHEMA),
    ("Output", OUTPUT_SCHEMA),
    ("MemoryBuffer",
      [ ("size", { type := [.int], default := Option.some (.int 100),
                   range := Option.some ⟨⟨1, 1⟩, Option.none⟩ }),
        ("type", { type := [.int], default := Option.some (.int codes.MEM_FIFO) }),
        ("connections", { type := [.list], default := Option.some (.list .nil) }),
        ("params", { type := [.dict], default := Option.some (.dict .nil) }) ]),
    ("Predictor",
      [ ("input", { type := [.dict], required := true }),
        ("target", { type := [.dict], required := true }),
        ("model_type", { type := [.int], default := Option.some (.int codes.PRED_MODEL_LINEAR) }),
        ("error_signals", { type := [.list], default := Option.some (.list .nil) }),
        ("params", { type := [.dict], default := Option.some (.dict .nil) }) ]),
    ("Comparator",
      [ ("source1", { type := [.dict], required := true }),
        ("source2", { type := [.dict], required := true }),
        ("metric", { type := [.int], default := Option.some (.int codes.METRIC_MSE) }),
        ("connections", { type := [.list], default := Option.some (.list .nil) }) ]),
    ("NoveltyModule",
      [ ("input", { type := [.dict], required := true }),
        ("memory_buffer_id", { type := [.int], default := Option.some (.int (-1)) }),
        ("method", { type := [.int], default := Option.some (.int codes.NOVELTY_PRED_ERROR_BASED) }),
        ("params", { type := [.dict], default := Option.some (.dict .nil) }) ]),
    ("IntrinsicReward",
      [ ("source_type", { type := [.int], required := true }),
        ("source_id", { type := [.int], required := true }),
        ("scaling_int", { type := [.int], default := Option.some (.int 100) }) ]),
    ("PolicyHead",
      [ ("action_space", { type := [.dict], required := true }),
        ("params_int", { type := [.dict], default := Option.some (.dict .nil) }),
        ("connections", { type := [.list], default := Option.some (.list .nil) }) ]),
    ("PlasticityRuleDef",
      [ ("type", { type := [.int], required := true }),
        ("params_int", { type := [.dict], default := Option.some (.dict .nil) }),
        ("rate_int", { type := [.int, .noneT], default := Option.some .none }) ]) ]

/-- Modelled from the spec: merge one inherited field spec with the override
attributes a type declares for it — "an override may replace only specific
attributes of an inherited field spec (e.g. just its default) while the rest
of the spec is preserved" (§4.1).  The schema-resolution code itself is not
part of the sources, only the tables it consumes are. -/
def mergeSpec (base : FieldSpec) (o : FieldOverride) : FieldSpec :=
  { type := o.typeO.getD base.type,
    default := match o.defaultO with
      | Option.some v => Option.some v
      | Option.none => base.default,
    required := o.requiredO.getD base.required,
    inferred := o.inferredO.getD base.inferred,
    range := match o.rangeO with
      | Option.some r => Option.some r
      | Option.none => base.range,
    tuple_len := match o.tuple_lenO with
      | Option.some n => Option.some n
      | Option.none => base.tuple_len }

/-- Modelled from the spec: a field that appears only in the override table
becomes a spec carrying exactly the declared attributes (§4.1, "merges the
base table ... with the type's override table field-by-field").  No entry of
the source tables exercises this branch. -/
def specOfOverride (o : FieldOverride) : FieldSpec :=
  { type := o.typeO.getD [],
    default := o.defaultO,
    required := o.requiredO.getD false,
    inferred := o.inferredO.getD false,
    range := o.rangeO,
    tuple_len := o.tuple_lenO }

/-- Modelled from the spec: `resolve` of the Schema Registry (§4.1) for a
concrete layer type — deep-copy the inherited base table and merge the
type's override table into it field by field.  The parameter sub-schema is
layered additively and is kept separately in `LayerTypeSchema.params`. -/
def resolveLayerSchema (t : LayerTypeSchema) : List (String × FieldSpec) :=
  (t.inherits.map fun p =>
    (p.1, match lookupA p.1 t.overrides with
      | Option.some o => mergeSpec p.2 o
      | Option.none => p.2))
  ++ ((t.overrides.filter fun p => (lookupA p.1 t.inherits).isNone).map
      fun p => (p.1, specOfOverride p.2))

/-- Python `isinstance(v, t)` for the types appearing in schema `type`
constraints.  As in Python, a `bool` is an `int` (`bool` subclasses `int`). -/
def typeMatches (v : PyVal) : PyType → Bool
  | .int => match v with
    | .int _ => true
    | .bool _ => true
    | _ => false
  | .float => match v with
    | .float _ => true
    | _ => false
  | .bool => match v with
    | .bool _ => true
    | _ => false
  | .dict => match v with
    | .dict _ => true
    | _ => false
  | .list => match v with
    | .list _ => true
    | _ => false
  | .set => match v with
    | .set _ => true
    | _ => false
  | .tuple => match v with
    | .tuple _ => true
    | _ => false
  | .str => match v with
    | .str _ => true
    | _ => false
  | .noneT => match v with
    | .none => true
    | _ => false

/-- A value satisfies a type union when it matches one of its members. -/
def typeOk (v : PyVal) (ts : List PyType) : Bool :=
  ts.any (typeMatches v)

/-- `a ≤ b` on modelled floats, by cross-multiplication (denominators are
positive in every literal of the tables). -/
def fltLe (a b : Flt) : Bool :=
  a.num * (b.den : Int) ≤ b.num * (a.den : Int)

/-- The numeric value of a `PyVal`, when it is a number (`bool` counts as a
number in Python, `True == 1`). -/
def numOf : PyVal → Option Flt
  | .int n => Option.some ⟨n, 1⟩
  | .float f => Option.some f
  | .bool b => Option.some ⟨cond b 1 0, 1⟩
  | _ => Option.none

/-- A value lies inside an inclusive numeric range; non-numeric values are
not constrained by a range. -/
def rangeOk (v : PyVal) (r : Option NumRange) : Bool :=
  match r with
  | Option.none => true
  | Option.some rg =>
    match numOf v with
    | Option.none => true
    | Option.some f =>
      fltLe rg.lo f && (match rg.hi with
        | Option.none => true
        | Option.some hi => fltLe f hi)

/-- Length of a tuple value. -/
def pyLenList : PyList → Nat
  | .nil => 0
  | .cons _ t => pyLenList t + 1

/-- The kinds of per-field validation errors (§7 of the spec). -/
inductive FieldErrKind where
  | MissingRequired
  | TypeMismatch
  | RangeViolation
  | ArityMismatch
deriving DecidableEq

/-- A field error: the field it names plus its kind.  The key type is the
schema's key type (`String` for component fields, `Int` for parameter
codes). -/
structure FieldErr (κ : Type) where
  field : κ
  kind : FieldErrKind
deriving DecidableEq

/-- Modelled from the spec: the checks the Field Validator applies to a
supplied value (§4.2) — type union, inclusive numeric range, and
fixed-length-sequence arity, where "a scalar value supplied where a
fixed-length sequence is declared is accepted and stored verbatim".  The
validator code is not part of the sources. -/
def checkSupplied (s : FieldSpec) (v : PyVal) : List FieldErrKind :=
  (if typeOk v s.type then [] else [.TypeMismatch])
  ++ (if rangeOk v s.range then [] else [.RangeViolation])
  ++ (match s.tuple_len, v with
      | Option.some n, .tuple xs => if pyLenList xs = n then [] else [.ArityMismatch]
      | _, _ => [])

/-- The value a validated entity records for one field: a checked supplied
or defaulted value, or `pending` for an absent inferred field. -/
inductive FieldState where
  | value (v : PyVal)
  | pending
deriving DecidableEq

/-- Modelled from the spec: the errors the Field Validator records for one
declared field (§4.2). -/
def fieldErrs {κ : Type} [DecidableEq κ] (raw : List (κ × PyVal)) (p : κ × FieldSpec) :
    List (FieldErr κ) :=
  match lookupA p.1 raw with
  | Option.some v => (checkSupplied p.2 v).map fun k => ⟨p.1, k⟩
  | Option.none =>
    if p.2.required && p.2.default.isNone then [⟨p.1, .MissingRequired⟩] else []

/-- Modelled from the spec: all field errors of one validation run (§4.2). -/
def validateErrors {κ : Type} [DecidableEq κ] (schema : List (κ × FieldSpec))
    (raw : List (κ × PyVal)) : List (FieldErr κ) :=
  schema.flatMap (fieldErrs raw)

/-- Modelled from the spec: the validated field values of one run (§4.2) —
supplied values are stored verbatim, absent inferred fields become
`pending`, absent fields with a default receive the default. -/
def validateValues {κ : Type} [DecidableEq κ] (schema : List (κ × FieldSpec))
    (raw : List (κ × PyVal)) : List (κ × FieldState) :=
  schema.filterMap fun p =>
    match lookupA p.1 raw with
    | Option.some v => Option.some (p.1, .value v)
    | Option.none =>
      if p.2.required && p.2.default.isNone then Option.none
      else if p.2.inferred then Option.some (p.1, .pending)
      else match p.2.default with
        | Option.some d => Option.some (p.1, .value d)
        | Option.none => Option.none

/-- Modelled from the spec: attributes outside the schema go to the
extension bag, never dropped (§4.2). -/
def extensionBag {κ : Type} [DecidableEq κ] (schema : List (κ × FieldSpec))
    (raw : List (κ × PyVal)) : List (κ × PyVal) :=
  raw.filter fun p => (lookupA p.1 schema).isNone

/-- Modelled from the spec: the all-or-nothing entity build of the IR
Builder (§4.4) — the entity exists only when validation reports zero
errors. -/
def buildComponent {κ : Type} [DecidableEq κ] (schema : List (κ × FieldSpec))
    (raw : List (κ × PyVal)) :
    Option (List (κ × FieldState) × List (κ × PyVal)) :=
  if validateErrors schema raw = [] then
    Option.some (validateValues schema raw, extensionBag schema raw)
  else Option.none

/-- A declared default is consistent with its own field spec: it satisfies
the declared type union and, when numeric and a range is declared, lies
within the inclusive range. -/
def specDefaultOk (s : FieldSpec) : Bool :=
  match s.default with
  | Option.none => true
  | Option.some v => typeOk v s.type && rangeOk v s.range

/-- `BlockDefinition` of `network_definition.py` (lines 69-83).  Dynamically
typed attributes are `PyVal`; `block_id` is `Int` per its annotation.
`extra_properties` is the `**kwargs` extension bag. -/
structure BlockDefinition where
  block_id : Int
  block_type : PyVal
  connections : PyVal
  attributes : PyVal
  flags : PyVal
  subblocks : PyVal
  default_params : PyVal
  shape_info : PyVal
  extra_properties : List (String × PyVal)
deriving DecidableEq

/-- `LayerDefinition` of `network_definition.py` (lines 94-142).
`block_id` / `layer_idx` are `Int` per their annotations; the remaining
attributes are `PyVal`; `extra_properties` is the `**kwargs` bag. -/
structure LayerDefinition where
  block_id : Int
  layer_idx : Int
  layer_type : PyVal
  params : PyVal
  skip_connections : PyVal
  activation : PyVal
  dropout : PyVal
  flags : PyVal
  bias : PyVal
  raw_weights : PyVal
  raw_biases : PyVal
  weight_init : PyVal
  bias_init : PyVal
  shape_constraints : PyVal
  shape_references : PyVal
  shape_adapter : PyVal
  reshape : PyVal
  shared_weights : PyVal
  weight_scale : PyVal
  sparsity : PyVal
  plasticity_rules : PyVal
  plasticity_rate : PyVal
  recurrent_cell : PyVal
  initial_state : PyVal
  temporal_aggregation : PyVal
  extra_properties : List (String × PyVal)
deriving DecidableEq

/-- `InputDefinition` of `network_definition.py` (lines 155-165).  Its
`__init__` declares no `**kwargs` and stores no extension bag. -/
structure InputDefinition where
  input_id : Int
  data_type : PyVal
  shape : PyVal
  attributes : PyVal
  connections : PyVal
  shape_derivation : PyVal
deriving DecidableEq

/-- `OutputDefinition` of `network_definition.py` (lines 173-183).  Its
`__init__` declares no `**kwargs` and stores no extension bag. -/
structure OutputDefinition where
  output_id : Int
  data_type : PyVal
  shape : PyVal
  attributes : PyVal
  connections : PyVal
  shape_derivation : PyVal
deriving DecidableEq

/-- The declared parameter names of `BlockDefinition.__init__`. -/
def blockInitParams : List String :=
  ["block_id", "block_type", "connections", "attributes", "flags", "subblocks",
   "default_params", "shape_info"]

/-- The declared parameter names of `LayerDefinition.__init__`. -/
def layerInitParams : List String :=
  ["block_id", "layer_idx", "layer_type", "params", "skip_connections",
   "activation", "dropout", "flags", "bias", "raw_weights", "raw_biases",
   "weight_init", "bias_init", "shape_constraints", "shape_references",
   "shape_adapter", "reshape", "shared_weights", "weight_scale", "sparsity",
   "plasticity_rules", "plasticity_rate", "recurrent_cell", "initial_state",
   "temporal_aggregation"]

/-- The declared parameter names of `InputDefinition.__init__`. -/
def inputInitParams : List String :=
  ["input_id", "data_type", "shape", "attributes", "connections", "shape_derivation"]

/-- The declared parameter names of `OutputDefinition.__init__`. -/
def outputInitParams : List String :=
  ["output_id", "data_type", "shape", "attributes", "connections", "shape_derivation"]

/-- Calling `BlockDefinition(**attrs)`: Python keyword binding.  Parameters
without a default must be supplied (else `TypeError`, modelled as `none`);
every attribute outside the declared parameters is collected into
`**kwargs`, which `__init__` stores as `extra_properties`. -/
def callBlockDefinition (attrs : List (String × PyVal)) : Option BlockDefinition :=
  match lookupA "block_id" attrs, lookupA "block_type" attrs,
        lookupA "connections" attrs, lookupA "attributes" attrs,
        lookupA "flags" attrs, lookupA "subblocks" attrs,
        lookupA "default_params" attrs with
  | Option.some (.int bid), Option.some bt, Option.some cs, Option.some av,
    Option.some fl, Option.some sb, Option.some dp =>
    Option.some
      { block_id := bid, block_type := bt, connections := cs, attributes := av,
        flags := fl, subblocks := sb, default_params := dp,
        shape_info := (lookupA "shape_info" attrs).getD .none,
        extra_properties := attrs.filter fun p => !(blockInitParams.contains p.1) }
  | _, _, _, _, _, _, _ => Option.none

/-- Calling `LayerDefinition(**attrs)`: Python keyword binding, with
`**kwargs` stored as `extra_properties`. -/
def callLayerDefinition (attrs : List (String × PyVal)) : Option LayerDefinition :=
  match lookupA "block_id" attrs, lookupA "layer_idx" attrs,
        lookupA "layer_type" attrs, lookupA "params" attrs,
        lookupA "skip_connections" attrs, lookupA "activation" attrs,
        lookupA "dropout" attrs, lookupA "flags" attrs, lookupA "bias" attrs with
  | Option.some (.int bid), Option.some (.int lidx), Option.some lt,
    Option.some pr, Option.some sk, Option.some ac, Option.some dr,
    Option.some fl, Option.some bi =>
    Option.some
      { block_id := bid, layer_idx := lidx, layer_type := lt, params := pr,
        skip_connections := sk, activation := ac, dropout := dr, flags := fl,
        bias := bi,
        raw_weights := (lookupA "raw_weights" attrs).getD .none,
        raw_biases := (lookupA "raw_biases" attrs).getD .none,
        weight_init := (lookupA "weight_init" attrs).getD .none,
        bias_init := (lookupA "bias_init" attrs).getD .none,
        shape_constraints := (lookupA "shape_constraints" attrs).getD .none,
        shape_references := (lookupA "shape_references" attrs).getD .none,
        shape_adapter := (lookupA "shape_adapter" attrs).getD .none,
        reshape := (lookupA "reshape" attrs).getD .none,
        shared_weights := (lookupA "shared_weights" attrs).getD .none,
        weight_scale := (lookupA "weight_scale" attrs).getD .none,
        sparsity := (lookupA "sparsity" attrs).getD .none,
        plasticity_rules := (lookupA "plasticity_rules" attrs).getD .none,
        plasticity_rate := (lookupA "plasticity_rate" attrs).getD .none,
        recurrent_cell := (lookupA "recurrent_cell" attrs).getD .none,
        initial_state := (lookupA "initial_state" attrs).getD .none,
        temporal_aggregation := (lookupA "temporal_aggregation" attrs).getD .none,
        extra_properties := attrs.filter fun p => !(layerInitParams.contains p.1) }
  | _, _, _, _, _, _, _, _, _ => Option.none

/-- Calling `InputDefinition(**attrs)`: the signature declares no
`**kwargs`, so any attribute outside the declared parameters raises
`TypeError` (modelled as `none`). -/
def callInputDefinition (attrs : List (String × PyVal)) : Option InputDefinition :=
  if attrs.all fun p => inputInitParams.contains p.1 then
    match lookupA "input_id" attrs, lookupA "data_type" attrs,
          lookupA "shape" attrs, lookupA "attributes" attrs,
          lookupA "connections" attrs with
    | Option.some (.int iid), Option.some dt, Option.some sh, Option.some av,
      Option.some cs =>
      Option.some
        { input_id := iid, data_type := dt, shape := sh, attributes := av,
          connections := cs,
          shape_derivation := (lookupA "shape_derivation" attrs).getD .none }
    | _, _, _, _, _ => Option.none
  else Option.none

/-- Calling `OutputDefinition(**attrs)`: the signature declares no
`**kwargs`, so any attribute outside the declared parameters raises
`TypeError` (modelled as `none`). -/
def callOutputDefinition (attrs : List (String × PyVal)) : Option OutputDefinition :=
  if attrs.all fun p => outputInitParams.contains p.1 then
    match lookupA "output_id" attrs, lookupA "data_type" attrs,
          lookupA "shape" attrs, lookupA "attributes" attrs,
          lookupA "connections" attrs with
    | Option.some (.int oid), Option.some dt, Option.some sh, Option.some av,
      Option.some cs =>
      Option.some
        { output_id := oid, data_type := dt, shape := sh, attributes := av,
          connections := cs,
          shape_derivation := (lookupA "shape_derivation" attrs).getD .none }
    | _, _, _, _, _ => Option.none
  else Option.none

/-- Decimal digits of the fractional part of `r / d`, with a fuel bound.
Best-effort rendering of a Python float; no claim depends on the exact
format Python would print. -/
def fracDigits : Nat → Nat → Nat → String
  | 0, _, _ => ""
  | _, 0, _ => ""
  | fuel + 1, r, d =>
    let r10 := r * 10
    toString (r10 / d) ++ fracDigits fuel (r10 % d) d

/-- Decimal rendering of a modelled float. -/
def fltRepr (f : Flt) : String :=
  let sign := if f.num < 0 then "-" else ""
  let a := f.num.natAbs
  if f.den = 0 then "inf"
  else if a % f.den = 0 then sign ++ toString (a / f.den) ++ ".0"
  else sign ++ toString (a / f.den) ++ "." ++ fracDigits 20 (a % f.den) f.den

mutual

/-- Python `repr(v)`. -/
def pyRepr : PyVal → String
  | .none => "None"
  | .bool b => cond b "True" "False"
  | .int n => toString n
  | .float f => fltRepr f
  | .str s => "'" ++ s ++ "'"
  | .list xs => "[" ++ pyReprItems xs ++ "]"
  | .tuple (.cons h .nil) => "(" ++ pyRepr h ++ ",)"
  | .tuple xs => "(" ++ pyReprItems xs ++ ")"
  | .set .nil => "set()"
  | .set xs => "\x7b" ++ pyReprItems xs ++ "\x7d"
  | .dict xs => "\x7b" ++ pyReprPairs xs ++ "\x7d"

/-- Comma-separated reprs of a container's items. -/
def pyReprItems : PyList → String
  | .nil => ""
  | .cons h .nil => pyRepr h
  | .cons h t => pyRepr h ++ ", " ++ pyReprItems t

/-- Comma-separated `key: value` reprs of a dict's pairs. -/
def pyReprPairs : PyDict → String
  | .nil => ""
  | .cons k v .nil => pyRepr k ++ ": " ++ pyRepr v
  | .cons k v t => pyRepr k ++ ": " ++ pyRepr v ++ ", " ++ pyReprPairs t

end

/-- Python `str(v)`, as used by f-string interpolation: like `repr` except
on strings themselves. -/
def pyStr : PyVal → String
  | .str s => s
  | v => pyRepr v

/-- Python truthiness (`if v:`). -/
def pyTruthy : PyVal → Bool
  | .none => false
  | .bool b => b
  | .int n => decide (n ≠ 0)
  | .float f => decide (f.num ≠ 0)
  | .str s => decide (s ≠ "")
  | .list .nil => false
  | .list _ => true
  | .tuple .nil => false
  | .tuple _ => true
  | .set .nil => false
  | .set _ => true
  | .dict .nil => false
  | .dict _ => true

/-- Python `len(v)` for containers (used by `LayerDefinition.__repr__`). -/
def pyLen : PyVal → Nat
  | .list xs => pyLenList xs
  | .tuple xs => pyLenList xs
  | .set xs => pyLenList xs
  | .dict xs =>
    let rec go : PyDict → Nat
      | .nil => 0
      | .cons _ _ t => go t + 1
    go xs
  | _ => 0

/-- `repr` of a string-keyed Python dict (the `extra_properties` bag). -/
def strDictRepr (l : List (String × PyVal)) : String :=
  "\x7b" ++ String.intercalate ", " (l.map fun p => "'" ++ p.1 ++ "': " ++ pyRepr p.2) ++ "\x7d"

/-- `BlockDefinition.__repr__` (`network_definition.py` lines 85-91). -/
def BlockDefinition.reprStr (b : BlockDefinition) : String :=
  let extra := if b.extra_properties.isEmpty then "" else ", extra=" ++ strDictRepr b.extra_properties
  let shape := if pyTruthy b.shape_info then ", shape=" ++ pyStr b.shape_info else ""
  let defaults := if pyTruthy b.default_params then ", defaults=" ++ pyStr b.default_params else ""
  "Block(id=" ++ toString b.block_id ++ ", type=" ++ pyStr b.block_type
    ++ ", conns=" ++ pyStr b.connections ++ ", attrs=" ++ pyStr b.attributes
    ++ ", flags=" ++ pyStr b.flags ++ ", subs=" ++ pyStr b.subblocks
    ++ defaults ++ shape ++ extra ++ ")"

/-- `LayerDefinition.__repr__` (`network_definition.py` lines 144-152). -/
def LayerDefinition.reprStr (l : LayerDefinition) : String :=
  let extra := if l.extra_properties.isEmpty then "" else ", extra=" ++ strDictRepr l.extra_properties
  let init :=
    if pyTruthy l.weight_init || pyTruthy l.bias_init then
      ", W_init=" ++ pyStr l.weight_init ++ ", B_init=" ++ pyStr l.bias_init
    else ""
  let shape :=
    if pyTruthy l.shape_constraints || pyTruthy l.shape_references then
      ", shape_constr=" ++ pyStr l.shape_constraints ++ ", shape_ref=" ++ pyStr l.shape_references
    else ""
  let raw :=
    if pyTruthy l.raw_weights || pyTruthy l.raw_biases then
      ", raw_W=" ++ toString (if pyTruthy l.raw_weights then pyLen l.raw_weights else 0)
        ++ ", raw_B=" ++ toString (if pyTruthy l.raw_biases then pyLen l.raw_biases else 0)
    else ""
  let plast := if pyTruthy l.plasticity_rules then ", plasticity=" ++ pyStr l.plasticity_rules else ""
  "Layer(idx=" ++ toString l.layer_idx ++ ", type=" ++ pyStr l.layer_type
    ++ ", params=" ++ pyStr l.params ++ ", skip=" ++ pyStr l.skip_connections
    ++ ", act=" ++ pyStr l.activation ++ ", dropout=" ++ pyStr l.dropout
    ++ ", flags=" ++ pyStr l.flags ++ ", bias=" ++ pyStr l.bias
    ++ init ++ shape ++ raw ++ plast ++ extra ++ ")"

/-- `InputDefinition.__repr__` (`network_definition.py` lines 167-170). -/
def InputDefinition.reprStr (i : InputDefinition) : String :=
  let deriv := if pyTruthy i.shape_derivation then ", shape_deriv=" ++ pyStr i.shape_derivation else ""
  "Input(id=" ++ toString i.input_id ++ ", data_type=" ++ pyStr i.data_type
    ++ ", shape=" ++ pyStr i.shape ++ ", attrs=" ++ pyStr i.attributes
    ++ ", conns=" ++ pyStr i.connections ++ deriv ++ ")"

/-- `OutputDefinition.__repr__` (`network_definition.py` lines 185-188). -/
def OutputDefinition.reprStr (o : OutputDefinition) : String :=
  let deriv := if pyTruthy o.shape_derivation then ", shape_deriv=" ++ pyStr o.shape_derivation else ""
  "Output(id=" ++ toString o.output_id ++ ", data_type=" ++ pyStr o.data_type
    ++ ", shape=" ++ pyStr o.shape ++ ", attrs=" ++ pyStr o.attributes
    ++ ", conns=" ++ pyStr o.connections ++ deriv ++ ")"

/-- Stable insertion into a list sorted by an integer key (the building
block of Python `sorted`). -/
def insertByKey {α : Type} (key : α → Int) (a : α) : List α → List α
  | [] => [a]
  | b :: bs => if key a ≤ key b then a :: b :: bs else b :: insertByKey key a bs

/-- Python `sorted(l, key=key)` (stable sort by an integer key; the repo
sorts dict items by their unique integer keys and layers by `layer_idx`). -/
def sortByKey {α : Type} (key : α → Int) : List α → List α
  | [] => []
  | a :: rest => insertByKey key a (sortByKey key rest)

/-- `NetworkDefinitionObj` of `network_definition.py` (lines 19-38).  The
four primary collections are association lists keyed by id (Python dicts in
insertion order); the remaining collections are opaque Python values, since
`__repr__` prints at most their dict/list form. -/
structure NetworkDefinitionObj where
  blocks : List (Int × BlockDefinition) := []
  layers : List (Int × List LayerDefinition) := []
  inputs : List (Int × InputDefinition) := []
  outputs : List (Int × OutputDefinition) := []
  memories : PyVal := .dict .nil
  meta_info : PyVal := .dict .nil
  plasticity_rules : PyVal := .dict .nil
  plasticity_modulations : PyVal := .list .nil
  memory_buffers : PyVal := .dict .nil
  predictors : PyVal := .dict .nil
  comparators : PyVal := .dict .nil
  novelty_modules : PyVal := .dict .nil
  intrinsic_rewards : PyVal := .dict .nil
  signal_routes : PyVal := .list .nil
  policy_heads : PyVal := .dict .nil
  recurrent_connections : PyVal := .list .nil
  layer_shape_conditionals : PyVal := .list .nil
deriving DecidableEq

/-- `sorted(self.blocks.items())` of `__repr__`. -/
def sortedBlocks (nd : NetworkDefinitionObj) : List (Int × BlockDefinition) :=
  sortByKey Prod.fst nd.blocks

/-- `sorted(self.layers.items())` of `__repr__`. -/
def sortedLayerGroups (nd : NetworkDefinitionObj) : List (Int × List LayerDefinition) :=
  sortByKey Prod.fst nd.layers

/-- `sorted(layers, key=lambda x: x.layer_idx)` of `__repr__`. -/
def sortLayerList (ls : List LayerDefinition) : List LayerDefinition :=
  sortByKey LayerDefinition.layer_idx ls

/-- `sorted(self.inputs.items())` of `__repr__`. -/
def sortedInputs (nd : NetworkDefinitionObj) : List (Int × InputDefinition) :=
  sortByKey Prod.fst nd.inputs

/-- `sorted(self.outputs.items())` of `__repr__`. -/
def sortedOutputs (nd : NetworkDefinitionObj) : List (Int × OutputDefinition) :=
  sortByKey Prod.fst nd.outputs

/-- `NetworkDefinitionObj.__repr__` (`network_definition.py` lines 40-66). -/
def NetworkDefinitionObj.reprStr (nd : NetworkDefinitionObj) : String :=
  let parts :=
    ["NetworkDefinitionObj:"]
    ++ ["  Meta Info: " ++ pyRepr nd.meta_info]
    ++ (if pyTruthy nd.memories then ["  Memories: " ++ pyRepr nd.memories] else [])
    ++ (if pyTruthy nd.plasticity_rules then
          ["  Plasticity Rules: " ++ pyRepr nd.plasticity_rules] else [])
    ++ (if nd.blocks.isEmpty then [] else
          "  Blocks:" :: (sortedBlocks nd).map fun p => "    " ++ p.2.reprStr)
    ++ (if nd.layers.isEmpty then [] else
          "  Layers:" :: (sortedLayerGroups nd).flatMap fun p =>
            ("    Block " ++ toString p.1 ++ ":")
              :: (sortLayerList p.2).map fun l => "      " ++ l.reprStr)
    ++ (if nd.inputs.isEmpty then [] else
          "  Inputs:" :: (sortedInputs nd).map fun p => "    " ++ p.2.reprStr)
    ++ (if nd.outputs.isEmpty then [] else
          "  Outputs:" :: (sortedOutputs nd).map fun p => "    " ++ p.2.reprStr)
  String.intercalate "\n" parts

/-- `LoggingManager._root_logger_name` (`logging_manager.py` line 47). -/
def rootLoggerName : String := "NetworkSystem"

/-- Split a list of characters at dots (Python `name.split('.')`). -/
def splitDotAux : List Char → List Char → List (List Char)
  | [], acc => [acc.reverse]
  | c :: cs, acc => if c = '.' then acc.reverse :: splitDotAux cs [] else splitDotAux cs (c :: acc)

/-- Python `s.split('.')`. -/
def splitDot (s : String) : List String :=
  (splitDotAux s.toList []).map fun l => ⟨l⟩

/-- Python `s.split('.')[0]` — the base component of a dotted name. -/
def headSegment (s : String) : String :=
  (splitDot s).headD ""

/-- Python `s.split('.')[-1]` — the last segment of a dotted name. -/
def lastSegment (s : String) : String :=
  (splitDot s).getLastD ""

/-- Character-list version of `startswith`. -/
def charsStart : List Char → List Char → Bool
  | _, [] => true
  | [], _ :: _ => false
  | c :: cs, d :: ds => c = d && charsStart cs ds

/-- Python `s.startswith(p)`. -/
def strStarts (s p : String) : Bool :=
  charsStart s.toList p.toList

/-- The mutable class state of `LoggingManager`, together with the level
registry of the `logging` module.  A logger is identified by its full name
(the `logging` module hands out one object per name); `loggers` is the key
set of `cls._loggers` in insertion order and `registryLevels` holds each
named logger's current level.  `logDirOk` models whether the module-level
`LOG_DIR` creation succeeded (`LOG_DIR is not None`). -/
structure LMState where
  loggers : List String := []
  registryLevels : List (String × Int) := []
  componentLevels : List (String × Int) := []
  defaultLevel : Int := 20
  consoleLevel : Int := 20
  inited : Bool := false
  logDirOk : Bool := true
deriving DecidableEq

/-- `LoggingManager.get_logger` for an initialized manager
(`logging_manager.py` lines 174-208): return the cached logger when the
full name is known, otherwise create one at the component-specific level of
its base component (`name.split('.')[0]`), or at the default level. -/
def getLoggerI (s : LMState) (name : String) : String × LMState :=
  let full := rootLoggerName ++ "." ++ name
  if full ∈ s.loggers then (full, s)
  else
    let base := headSegment name
    let lvl := (lookupA base s.componentLevels).getD s.defaultLevel
    (full, { s with loggers := s.loggers ++ [full],
                    registryLevels := setA full lvl s.registryLevels })

/-- The `name is None or name == root` branch of `LoggingManager.set_level`
(`logging_manager.py` lines 236-256): update the default level, the root
logger, the console handler, and every cached logger whose *last* name
segment (`logger_name.split('.')[-1]`) has no component-specific level.
`isNoneName` records whether `name` was `None` (the loop's `elif` fires
only then). -/
def setLevelRoot (level : Int) (isNoneName : Bool) (s : LMState) : LMState :=
  let s1 := { s with defaultLevel := level,
                     registryLevels := setA rootLoggerName level s.registryLevels,
                     consoleLevel := level }
  { s1 with registryLevels :=
    (s1.loggers.foldl (fun reg ln =>
      if strStarts ln (rootLoggerName ++ ".") then
        if (lookupA (lastSegment ln) s1.componentLevels).isNone then setA ln level reg else reg
      else if isNoneName && ln = rootLoggerName then setA ln level reg
      else reg) s1.registryLevels) }

/-- The component branch of `LoggingManager.set_level`
(`logging_manager.py` lines 259-278): record the level for the base
component (`name.split('.')[0]`), update every cached logger whose name
starts with `NetworkSystem.<base>`, then ensure the base component's logger
exists (`cls.get_logger(base_component)`; the manager is initialized in
every reachable call). -/
def setLevelComponent (level : Int) (n : String) (s : LMState) : LMState :=
  let base := headSegment n
  let s1 := { s with componentLevels := setA base level s.componentLevels }
  let s2 := { s1 with registryLevels :=
    (s1.loggers.foldl (fun reg ln =>
      if strStarts ln (rootLoggerName ++ "." ++ base) then setA ln level reg else reg)
      s1.registryLevels) }
  (getLoggerI s2 base).2

/-- `LoggingManager.set_level` once the manager is initialized. -/
def setLevelI (level : Int) (name? : Option String) (s : LMState) : LMState :=
  match name? with
  | Option.none => setLevelRoot level true s
  | Option.some n =>
    if n = rootLoggerName then setLevelRoot level false s else setLevelComponent level n s

/-- `LoggingManager.initialize` (`logging_manager.py` lines 58-151), for
integer levels.  When already initialized (and not forced) it only replays
the levels through `set_level`; otherwise, when the log directory is
available, it installs the default level, the handlers, the root logger and
the component levels (each applied through `set_level` with
`initializing=True`, which also creates the component's logger). -/
def initLM (dl : Int) (cl : List (String × Int)) (s : LMState) : LMState :=
  if s.inited then
    let s1 := setLevelI dl Option.none s
    cl.foldl (fun st p => setLevelI p.2 (Option.some p.1) st) s1
  else if !s.logDirOk then s
  else
    let s1 := { s with defaultLevel := dl, componentLevels := cl,
                       registryLevels := setA rootLoggerName dl s.registryLevels,
                       consoleLevel := dl,
                       loggers := if rootLoggerName ∈ s.loggers then s.loggers
                                  else s.loggers ++ [rootLoggerName],
                       inited := true }
    cl.foldl (fun st p => setLevelI p.2 (Option.some p.1) st) s1

/-- `LoggingManager.get_logger` (`logging_manager.py` lines 154-208): an
uninitialized manager first initializes itself with default settings when
the log directory is available, and returns the `"DisabledLogger"` stand-in
otherwise. -/
def get_logger (s : LMState) (name : String) : String × LMState :=
  if !s.inited then
    if s.logDirOk then getLoggerI (initLM 20 [] s) name
    else ("DisabledLogger", s)
  else getLoggerI s name

/-- `LoggingManager.set_level` (`logging_manager.py` lines 210-278), full
entry point: a pre-initialization call initializes with this level instead. -/
def set_level (level : Int) (name? : Option String) (s : LMState) : LMState :=
  if !s.inited then
    match name? with
    | Option.none => initLM level [] s
    | Option.some n => initLM s.defaultLevel [(n, level)] s
  else setLevelI level name? s

/-- C8: the component-code table is a bijection between the codes
`'01'..'11'` and exactly the eleven entity category names — every category
has exactly one code and no two categories share a code. -/
theorem C8_component_code_table_bijection :
    COMPONENT_CODE_TO_NAME.map Prod.fst =
      ["01", "02", "03", "04", "05", "06", "07", "08", "09", "10", "11"] ∧
    (COMPONENT_CODE_TO_NAME.map Prod.fst).Nodup ∧
    COMPONENT_CODE_TO_NAME.map Prod.snd =
      ["Block", "Layer", "Input", "Output", "MemoryBuffer", "Predictor",
       "Comparator", "NoveltyModule", "IntrinsicReward", "PolicyHead",
       "PlasticityRuleDef"] ∧
    (COMPONENT_CODE_TO_NAME.map Prod.snd).Nodup := by
  decide

/-- C7: every concrete layer type of `LAYER_SPECIFIC_SCHEMAS` declares
inheritance from the single shared `BASE_LAYER_SCHEMA` and a non-empty
`allowed_flags` whitelist. -/
theorem C7_every_layer_type_inherits_base_and_has_flags :
    ∀ p ∈ LAYER_SPECIFIC_SCHEMAS,
      p.2.inherits = BASE_LAYER_SCHEMA ∧ p.2.allowed_flags ≠ [] := by
  decide

/-- Witness for C7 at the Linear layer type. -/
theorem C7_witness :
    LINEAR_SCHEMA.inherits = BASE_LAYER_SCHEMA ∧ LINEAR_SCHEMA.allowed_flags ≠ [] :=
  C7_every_layer_type_inherits_base_and_has_flags
    (codes.LAYER_LINEAR, LINEAR_SCHEMA) (by decide)

/-- C1: for every registered layer type, the resolved schema contains every
`BASE_LAYER_SCHEMA` field unchanged unless that field is explicitly
overridden; every override in the tables replaces only the `default`
attribute, and the resolved spec of an overridden field keeps all other
attributes of the inherited spec. -/
theorem C1_resolution_preserves_base_fields :
    ∀ p ∈ LAYER_SPECIFIC_SCHEMAS, ∀ q ∈ BASE_LAYER_SCHEMA,
      (lookupA q.1 p.2.overrides = Option.none →
        lookupA q.1 (resolveLayerSchema p.2) = Option.some q.2) ∧
      (∀ o ∈ p.2.overrides, o.1 = q.1 →
        o.2.typeO = Option.none ∧ o.2.requiredO = Option.none ∧
        o.2.inferredO = Option.none ∧ o.2.rangeO = Option.none ∧
        o.2.tuple_lenO = Option.none ∧
        lookupA q.1 (resolveLayerSchema p.2) =
          Option.some { q.2 with default := o.2.defaultO }) := by
  decide

/-- Witness for C1: the non-overridden `layer_idx` field survives Linear
resolution verbatim. -/
theorem C1_witness :
    lookupA "layer_idx" (resolveLayerSchema LINEAR_SCHEMA) =
      Option.some ({ type := [.int] } : FieldSpec) :=
  (C1_resolution_preserves_base_fields (codes.LAYER_LINEAR, LINEAR_SCHEMA)
    (by decide) ("layer_idx", { type := [.int] }) (by decide)).1 (by decide)

/-- Counterexample to C2 as stated: in the resolved BatchNorm1D schema the
inherited `bias` field keeps its `bool` type constraint while the override
sets its default to `None`, so that default violates the field's own type
constraint. -/
theorem C2_counterexample :
    (lookupA "bias" (resolveLayerSchema BATCHNORM1D_SCHEMA)).map
        (fun s => (s.type, s.default, specDefaultOk s)) =
      Option.some ([PyType.bool], Option.some PyVal.none, false) := by
  decide

/-- C2 amended: every declared default in the component schemas, in the
layer parameter sub-schemas and in the resolved layer schemas satisfies its
field's own type and range constraints — except the inherited `bias` field
of the BatchNorm1D and GroupNorm resolved schemas, whose overridden `None`
default violates the inherited `bool` type constraint. -/
theorem C2_defaults_consistent_amended :
    (∀ c ∈ COMPONENT_SCHEMA, ∀ q ∈ c.2, specDefaultOk q.2 = true) ∧
    (∀ p ∈ LAYER_SPECIFIC_SCHEMAS, ∀ q ∈ p.2.params, specDefaultOk q.2 = true) ∧
    (∀ p ∈ LAYER_SPECIFIC_SCHEMAS, ∀ q ∈ resolveLayerSchema p.2,
      ¬(q.1 = "bias" ∧
        (p.1 = codes.LAYER_BATCHNORM1D ∨ p.1 = codes.LAYER_GROUPNORM)) →
        specDefaultOk q.2 = true) := by
  decide

/-- Witness for the amended C2 at the `type` default of the Block schema. -/
theorem C2_witness :
    specDefaultOk { type := [.int], default := Option.some (.int codes.BLOCK_SEQUENTIAL) } = true :=
  C2_defaults_consistent_amended.1 ("Block", BLOCK_SCHEMA) (by decide)
    ("type", { type := [.int], default := Option.some (.int codes.BLOCK_SEQUENTIAL) })
    (by decide)

/-- The facts C6 asserts about one N-dimensional convolution schema: the
output-channel parameter is required, the input-channel parameter is
inferred, and the kernel-size parameter is required with arity `N` and type
union `(int, tuple)`, so that any supplied scalar integer passes every
supplied-value check and is stored verbatim. -/
def convKernelFacts (t : LayerTypeSchema) (n : Nat) : Prop :=
  (lookupA codes.PARAM_OUT_CHANNELS t.params).map FieldSpec.required = Option.some true ∧
  (lookupA codes.PARAM_IN_CHANNELS t.params).map FieldSpec.inferred = Option.some true ∧
  (lookupA codes.PARAM_KERNEL_SIZE t.params).map
      (fun s => (s.required, s.tuple_len, s.type)) =
    Option.some (true, Option.some n, [PyType.int, PyType.tuple]) ∧
  (∀ k : Int, (lookupA codes.PARAM_KERNEL_SIZE t.params).map
      (fun s => checkSupplied s (.int k)) = Option.some []) ∧
  (∀ k : Int, lookupA codes.PARAM_KERNEL_SIZE
      (validateValues t.params [(codes.PARAM_KERNEL_SIZE, PyVal.int k)]) =
    Option.some (.value (.int k)))

/-- C6: for each N in `{1, 2, 3}`, the N-dimensional convolution schema
requires the output-channel parameter, requires the kernel-size parameter
with fixed arity N and a type union admitting a scalar integer (a supplied
scalar is accepted with no arity error and stored verbatim), and marks the
input-channel parameter as inferred. -/
theorem C6_conv_schemas_kernel_and_channels :
    convKernelFacts CONV1D_SCHEMA 1 ∧ convKernelFacts CONV2D_SCHEMA 2 ∧
    convKernelFacts CONV3D_SCHEMA 3 := by
  refine ⟨⟨?_, ?_, ?_, ?_, ?_⟩, ⟨?_, ?_, ?_, ?_, ?_⟩, ⟨?_, ?_, ?_, ?_, ?_⟩⟩ <;>
    first
      | decide
      | (intro k; rfl)

/-- The raw Input attribute map used to refute C3: every declared field is
supplied, plus one attribute outside the schema. -/
def inputAttrsWithExtra : List (String × PyVal) :=
  [("input_id", .int 0), ("data_type", .int 0),
   ("shape", .list (.cons (.int 3) .nil)), ("attributes", .dict .nil),
   ("connections", .list .nil), ("custom_tag", .int 7)]

/-- The raw Output attribute map used to refute C3. -/
def outputAttrsWithExtra : List (String × PyVal) :=
  [("output_id", .int 0), ("data_type", .int 0), ("shape", .none),
   ("attributes", .dict .nil), ("connections", .list .nil),
   ("custom_tag", .int 7)]

/-- Counterexample to C3 as stated: constructing an Input or Output entity
with one attribute outside the declared fields does not succeed at all
(`InputDefinition.__init__` / `OutputDefinition.__init__` declare no
`**kwargs`, so the call raises `TypeError`), instead of storing the extra
attribute in an extension bag. -/
theorem C3_counterexample :
    callInputDefinition inputAttrsWithExtra = Option.none ∧
    callOutputDefinition outputAttrsWithExtra = Option.none := by
  decide

/-- C3 amended: Block and Layer entities accept attributes outside the
declared schema fields and store exactly those attributes in
`extra_properties`, none dropped; Input and Output entities reject any
attribute outside their declared fields (the construction fails rather than
silently dropping it). -/
theorem C3_extension_bag_amended :
    (∀ attrs b, callBlockDefinition attrs = Option.some b →
      b.extra_properties = attrs.filter fun p => !(blockInitParams.contains p.1)) ∧
    (∀ attrs l, callLayerDefinition attrs = Option.some l →
      l.extra_properties = attrs.filter fun p => !(layerInitParams.contains p.1)) ∧
    (∀ attrs, ∀ p ∈ attrs, inputInitParams.contains p.1 = false →
      callInputDefinition attrs = Option.none) ∧
    (∀ attrs, ∀ p ∈ attrs, outputInitParams.contains p.1 = false →
      callOutputDefinition attrs = Option.none) := by
  refine ⟨?_, ?_, ?_, ?_⟩
  · intro attrs b h
    unfold callBlockDefinition at h
    split at h
    · cases h; rfl
    · exact Option.noConfusion h
  · intro attrs l h
    unfold callLayerDefinition at h
    split at h
    · cases h; rfl
    · exact Option.noConfusion h
  · intro attrs p hp hnp
    have hall : (attrs.all fun q => inputInitParams.contains q.1) = false := by
      cases hall : attrs.all fun q => inputInitParams.contains q.1 with
      | true =>
        have h2 := List.all_eq_true.mp hall p hp
        simp only at h2
        rw [hnp] at h2
        exact Bool.noConfusion h2
      | false => rfl
    unfold callInputDefinition
    rw [hall]
    simp
  · intro attrs p hp hnp
    have hall : (attrs.all fun q => outputInitParams.contains q.1) = false := by
      cases hall : attrs.all fun q => outputInitParams.contains q.1 with
      | true =>
        have h2 := List.all_eq_true.mp hall p hp
        simp only at h2
        rw [hnp] at h2
        exact Bool.noConfusion h2
      | false => rfl
    unfold callOutputDefinition
    rw [hall]
    simp

/-- The raw Block attribute map used to witness the amended C3. -/
def blockAttrsWithExtra : List (String × PyVal) :=
  [("block_id", .int 2), ("block_type", .int codes.BLOCK_SEQUENTIAL),
   ("connections", .list .nil), ("attributes", .dict .nil),
   ("flags", .set .nil), ("subblocks", .list .nil),
   ("default_params", .dict .nil), ("custom_tag", .int 7)]

/-- Witness for the amended C3: a Block built with one extra attribute
stores exactly that attribute in its extension bag. -/
theorem C3_witness :
    (callBlockDefinition blockAttrsWithExtra).map BlockDefinition.extra_properties =
      Option.some [("custom_tag", PyVal.int 7)] := by
  cases hc : callBlockDefinition blockAttrsWithExtra with
  | none => exact absurd hc (by decide)
  | some b =>
    have hb := C3_extension_bag_amended.1 blockAttrsWithExtra b hc
    rw [Option.map_some', hb]
    decide

/-- Errors produced for one field all carry that field's name: counting a
differently named error among them gives zero. -/
theorem count_errs_map_ne {n m : String} {kk : FieldErrKind}
    (ks : List FieldErrKind) (h : n ≠ m) :
    ((ks.map fun k => (⟨n, k⟩ : FieldErr String)).count ⟨m, kk⟩) = 0 := by
  induction ks with
  | nil => rfl
  | cons a t ih =>
    simp only [List.map_cons, List.count_cons, ih]
    simp [FieldErr.mk.injEq, h]

/-- A schema field contributes no error named after a different field. -/
theorem fieldErrs_count_ne {raw : List (String × PyVal)} {p : String × FieldSpec}
    {m : String} {kk : FieldErrKind} (h : p.1 ≠ m) :
    ((fieldErrs raw p).count ⟨m, kk⟩) = 0 := by
  unfold fieldErrs
  cases lookupA p.1 raw with
  | some v => exact count_errs_map_ne _ h
  | none =>
    by_cases hc : (p.2.required && p.2.default.isNone) = true
    · rw [if_pos hc]
      simp [List.count_cons, Ne.symm h]
    · rw [if_neg hc]
      rfl

/-- C5: validating an Output attribute map that omits `connections` yields
exactly one MissingRequired error for that field and the Output entity is
never built, because the Output schema marks `connections` required with no
default; the Block and Input schemas instead default `connections` to the
empty list. -/
theorem C5_output_connections_required (raw : List (String × PyVal))
    (h : lookupA "connections" raw = Option.none) :
    ((validateErrors OUTPUT_SCHEMA raw).count ⟨"connections", .MissingRequired⟩) = 1 ∧
    buildComponent OUTPUT_SCHEMA raw = Option.none ∧
    (lookupA "connections" OUTPUT_SCHEMA).map (fun s => (s.required, s.default)) =
      Option.some (true, Option.none) ∧
    (lookupA "connections" BLOCK_SCHEMA).map FieldSpec.default =
      Option.some (Option.some (.list .nil)) ∧
    (lookupA "connections" INPUT_SCHEMA).map FieldSpec.default =
      Option.some (Option.some (.list .nil)) := by
  have hconn :
      ((fieldErrs raw ("connections", ({ type := [.list], required := true } : FieldSpec))).count
        ⟨"connections", .MissingRequired⟩) = 1 := by
    unfold fieldErrs
    rw [h]
    rfl
  have hcount :
      ((validateErrors OUTPUT_SCHEMA raw).count ⟨"connections", .MissingRequired⟩) = 1 := by
    show ((OUTPUT_SCHEMA.flatMap (fieldErrs raw)).count ⟨"connections", .MissingRequired⟩) = 1
    rw [show OUTPUT_SCHEMA =
        [ ("data_type", ({ type := [.int], default := Option.some (.int 0) } : FieldSpec)),
          ("shape", { type := [.list, .tuple, .noneT], default := Option.some .none }),
          ("attributes", { type := [.dict], default := Option.some (.dict .nil) }),
          ("connections", { type := [.list], required := true }),
          ("shape_derivation", { type := [.dict, .noneT], default := Option.some .none }) ]
      from rfl]
    simp only [List.flatMap_cons, List.flatMap_nil, List.count_append, List.append_nil]
    rw [hconn, fieldErrs_count_ne (by decide), fieldErrs_count_ne (by decide),
        fieldErrs_count_ne (by decide), fieldErrs_count_ne (by decide)]
  refine ⟨hcount, ?_, by decide, by decide, by decide⟩
  have hne : validateErrors OUTPUT_SCHEMA raw ≠ [] := by
    intro h0
    rw [h0] at hcount
    exact absurd hcount (by decide)
  unfold buildComponent
  rw [if_neg hne]

/-- Witness for C5 at the empty attribute map. -/
theorem C5_witness :
    ((validateErrors OUTPUT_SCHEMA ([] : List (String × PyVal))).count
      ⟨"connections", .MissingRequired⟩) = 1 ∧
    buildComponent OUTPUT_SCHEMA ([] : List (String × PyVal)) = Option.none ∧
    (lookupA "connections" OUTPUT_SCHEMA).map (fun s => (s.required, s.default)) =
      Option.some (true, Option.none) ∧
    (lookupA "connections" BLOCK_SCHEMA).map FieldSpec.default =
      Option.some (Option.some (.list .nil)) ∧
    (lookupA "connections" INPUT_SCHEMA).map FieldSpec.default =
      Option.some (Option.some (.list .nil)) :=
  C5_output_connections_required [] (by decide)

/-- Inserting into a list is a permutation of consing. -/
theorem insertByKey_perm {α : Type} (key : α → Int) (a : α) (l : List α) :
    (insertByKey key a l).Perm (a :: l) := by
  induction l with
  | nil => exact List.Perm.refl _
  | cons b bs ih =>
    unfold insertByKey
    by_cases hle : key a ≤ key b
    · rw [if_pos hle]
    · rw [if_neg hle]
      exact ((ih.cons b).trans (List.Perm.swap a b bs))

/-- `sortByKey` permutes its input. -/
theorem sortByKey_perm {α : Type} (key : α → Int) (l : List α) :
    (sortByKey key l).Perm l := by
  induction l with
  | nil => exact List.Perm.refl _
  | cons a rest ih =>
    exact (insertByKey_perm key a (sortByKey key rest)).trans (ih.cons a)

/-- Inserting preserves sortedness by the key. -/
theorem sorted_insertByKey {α : Type} {key : α → Int} {l : List α} (a : α)
    (h : l.Sorted fun x y => key x ≤ key y) :
    (insertByKey key a l).Sorted fun x y => key x ≤ key y := by
  induction l with
  | nil => simp [insertByKey]
  | cons b bs ih =>
    rw [List.sorted_cons] at h
    unfold insertByKey
    by_cases hle : key a ≤ key b
    · rw [if_pos hle]
      refine List.sorted_cons.mpr ⟨?_, List.sorted_cons.mpr h⟩
      intro x hx
      rcases List.mem_cons.mp hx with hx | hx
      · exact hx ▸ hle
      · exact le_trans hle (h.1 x hx)
    · rw [if_neg hle]
      refine List.sorted_cons.mpr ⟨?_, ih h.2⟩
      intro x hx
      rcases List.mem_cons.mp ((insertByKey_perm key a bs).mem_iff.mp hx) with hx | hx
      · exact hx ▸ le_of_not_le hle
      · exact h.1 x hx

/-- `sortByKey` sorts by the key. -/
theorem sorted_sortByKey {α : Type} (key : α → Int) (l : List α) :
    (sortByKey key l).Sorted fun x y => key x ≤ key y := by
  induction l with
  | nil => simp [sortByKey]
  | cons a rest ih => exact sorted_insertByKey a ih

/-- With pairwise-distinct keys, `sortByKey` puts the keys in strictly
ascending order. -/
theorem sortByKey_map_sorted_lt {α : Type} (key : α → Int) (l : List α)
    (h : (l.map key).Nodup) :
    ((sortByKey key l).map key).Sorted (· < ·) := by
  have hperm : ((sortByKey key l).map key).Perm (l.map key) :=
    (sortByKey_perm key l).map key
  have hnd : ((sortByKey key l).map key).Nodup := hperm.nodup_iff.mpr h
  have hle : (sortByKey key l).Pairwise fun x y => key x ≤ key y :=
    sorted_sortByKey key l
  have hne : (sortByKey key l).Pairwise fun x y => key x ≠ key y :=
    List.pairwise_map.mp hnd
  exact List.pairwise_map.mpr ((hle.and hne).imp fun hp => lt_of_le_of_ne hp.1 hp.2)

/-- C4: the textual serialization of a network definition enumerates blocks
in ascending block-id order, layers within each block in ascending
layer-index order, and inputs and outputs in ascending id order (given the
dict/index uniqueness the aggregate maintains), and serializing the same
unchanged object twice yields identical strings. -/
theorem C4_repr_deterministic_and_ordered (nd : NetworkDefinitionObj)
    (hb : (nd.blocks.map Prod.fst).Nodup)
    (hi : (nd.inputs.map Prod.fst).Nodup)
    (ho : (nd.outputs.map Prod.fst).Nodup)
    (hg : (nd.layers.map Prod.fst).Nodup)
    (hl : ∀ p ∈ nd.layers, ((p.2.map LayerDefinition.layer_idx).Nodup)) :
    ((sortedBlocks nd).map Prod.fst).Sorted (· < ·) ∧
    ((sortedLayerGroups nd).map Prod.fst).Sorted (· < ·) ∧
    (∀ p ∈ sortedLayerGroups nd,
      ((sortLayerList p.2).map LayerDefinition.layer_idx).Sorted (· < ·)) ∧
    ((sortedInputs nd).map Prod.fst).Sorted (· < ·) ∧
    ((sortedOutputs nd).map Prod.fst).Sorted (· < ·) ∧
    nd.reprStr = nd.reprStr := by
  refine ⟨sortByKey_map_sorted_lt _ _ hb, sortByKey_map_sorted_lt _ _ hg, ?_,
    sortByKey_map_sorted_lt _ _ hi, sortByKey_map_sorted_lt _ _ ho, rfl⟩
  intro p hp
  exact sortByKey_map_sorted_lt _ _
    (hl p ((sortByKey_perm Prod.fst nd.layers).mem_iff.mp hp))

/-- A two-block, out-of-order network definition used to witness C4. -/
def wBlock (i : Int) : BlockDefinition :=
  { block_id := i, block_type := .int codes.BLOCK_SEQUENTIAL,
    connections := .list .nil, attributes := .dict .nil, flags := .set .nil,
    subblocks := .list .nil, default_params := .dict .nil, shape_info := .none,
    extra_properties := [] }

/-- A minimal layer used to witness C4. -/
def wLayer (i : Int) : LayerDefinition :=
  { block_id := 0, layer_idx := i, layer_type := .int codes.LAYER_LINEAR,
    params := .dict .nil, skip_connections := .list .nil,
    activation := .int codes.ACT_IDENTITY, dropout := .none, flags := .set .nil,
    bias := .bool true, raw_weights := .none, raw_biases := .none,
    weight_init := .none, bias_init := .none, shape_constraints := .none,
    shape_references := .none, shape_adapter := .none, reshape := .none,
    shared_weights := .none, weight_scale := .none, sparsity := .none,
    plasticity_rules := .none, plasticity_rate := .none, recurrent_cell := .none,
    initial_state := .none, temporal_aggregation := .none, extra_properties := [] }

/-- The witness network definition: collections inserted out of id order. -/
def wNetworkDefinition : NetworkDefinitionObj :=
  { blocks := [(2, wBlock 2), (0, wBlock 0), (1, wBlock 1)],
    layers := [(0, [wLayer 1, wLayer 0])],
    inputs := [(1, { input_id := 1, data_type := .int 0,
                     shape := .list (.cons (.int 3) .nil), attributes := .dict .nil,
                     connections := .list .nil, shape_derivation := .none }),
               (0, { input_id := 0, data_type := .int 0,
                     shape := .list (.cons (.int 3) .nil), attributes := .dict .nil,
                     connections := .list .nil, shape_derivation := .none })],
    outputs := [(1, { output_id := 1, data_type := .int 0, shape := .none,
                      attributes := .dict .nil, connections := .list .nil,
                      shape_derivation := .none })] }

/-- Witness for C4 at a concrete out-of-order network definition. -/
theorem C4_witness :
    ((sortedBlocks wNetworkDefinition).map Prod.fst).Sorted (· < ·) ∧
    ((sortedLayerGroups wNetworkDefinition).map Prod.fst).Sorted (· < ·) ∧
    (∀ p ∈ sortedLayerGroups wNetworkDefinition,
      ((sortLayerList p.2).map LayerDefinition.layer_idx).Sorted (· < ·)) ∧
    ((sortedInputs wNetworkDefinition).map Prod.fst).Sorted (· < ·) ∧
    ((sortedOutputs wNetworkDefinition).map Prod.fst).Sorted (· < ·) ∧
    wNetworkDefinition.reprStr = wNetworkDefinition.reprStr :=
  C4_repr_deterministic_and_ordered wNetworkDefinition (by decide) (by decide)
    (by decide) (by decide) (by decide)

/-- `getLoggerI` always returns the root-qualified logger name. -/
theorem getLoggerI_fst (s : LMState) (name : String) :
    (getLoggerI s name).1 = rootLoggerName ++ "." ++ name := by
  by_cases h : (rootLoggerName ++ "." ++ name) ∈ s.loggers <;>
    simp [getLoggerI, h]

/-- After `getLoggerI` the requested logger is cached. -/
theorem getLoggerI_mem (s : LMState) (name : String) :
    (rootLoggerName ++ "." ++ name) ∈ (getLoggerI s name).2.loggers := by
  by_cases h : (rootLoggerName ++ "." ++ name) ∈ s.loggers <;>
    simp [getLoggerI, h]

/-- `getLoggerI` touches neither the flags nor the level configuration. -/
theorem getLoggerI_preserves (s : LMState) (name : String) :
    (getLoggerI s name).2.inited = s.inited ∧
    (getLoggerI s name).2.logDirOk = s.logDirOk ∧
    (getLoggerI s name).2.defaultLevel = s.defaultLevel ∧
    (getLoggerI s name).2.componentLevels = s.componentLevels := by
  by_cases h : (rootLoggerName ++ "." ++ name) ∈ s.loggers <;>
    simp [getLoggerI, h]

/-- A cached logger is returned as-is, with no state change. -/
theorem getLoggerI_cached (s : LMState) (name : String)
    (h : (rootLoggerName ++ "." ++ name) ∈ s.loggers) :
    getLoggerI s name = (rootLoggerName ++ "." ++ name, s) := by
  simp [getLoggerI, h]

/-- A fresh default initialization (`cls.initialize()` from `get_logger`)
sets the default configuration and marks the manager initialized. -/
theorem initLM_default (s : LMState) (h1 : s.inited = false) (h2 : s.logDirOk = true) :
    initLM 20 [] s =
      { s with defaultLevel := 20, componentLevels := [],
               registryLevels := setA rootLoggerName 20 s.registryLevels,
               consoleLevel := 20,
               loggers := if rootLoggerName ∈ s.loggers then s.loggers
                          else s.loggers ++ [rootLoggerName],
               inited := true } := by
  unfold initLM
  rw [h1, h2]
  rfl

/-- C9: two successive `get_logger` calls with the same name return the
identical logger (the second call is served from the cache and leaves the
state untouched), and a first call on an uninitialized manager with an
available log directory initializes the manager with the default settings
(default level INFO = 20, no component levels). -/
theorem C9_get_logger_idempotent (s : LMState) (name : String) :
    (get_logger (get_logger s name).2 name).1 = (get_logger s name).1 ∧
    (get_logger (get_logger s name).2 name).2 = (get_logger s name).2 ∧
    (s.inited = false → s.logDirOk = true →
      (get_logger s name).2.inited = true ∧
      (get_logger s name).2.defaultLevel = 20 ∧
      (get_logger s name).2.componentLevels = []) := by
  by_cases hi : s.inited = true
  · have e1 : get_logger s name = getLoggerI s name := by
      unfold get_logger
      rw [hi]
      rfl
    have hinit : (getLoggerI s name).2.inited = true := by
      rw [(getLoggerI_preserves s name).1, hi]
    have e2 : get_logger (getLoggerI s name).2 name = getLoggerI (getLoggerI s name).2 name := by
      unfold get_logger
      rw [hinit]
      rfl
    have e3 : getLoggerI (getLoggerI s name).2 name =
        (rootLoggerName ++ "." ++ name, (getLoggerI s name).2) :=
      getLoggerI_cached _ _ (getLoggerI_mem s name)
    refine ⟨?_, ?_, ?_⟩
    · rw [e1, e2, e3, getLoggerI_fst]
    · rw [e1, e2, e3]
    · intro hf
      rw [hi] at hf
      exact Bool.noConfusion hf
  · have hi' : s.inited = false := by
      cases hv : s.inited
      · rfl
      · exact absurd hv hi
    by_cases hd : s.logDirOk = true
    · have e1 : get_logger s name = getLoggerI (initLM 20 [] s) name := by
        unfold get_logger
        rw [hi', hd]
        rfl
      have hmid := initLM_default s hi' hd
      have hinit1 : (initLM 20 [] s).inited = true := by rw [hmid]
      have hdef1 : (initLM 20 [] s).defaultLevel = 20 := by rw [hmid]
      have hcl1 : (initLM 20 [] s).componentLevels = [] := by rw [hmid]
      have hpres := getLoggerI_preserves (initLM 20 [] s) name
      have hinit : (getLoggerI (initLM 20 [] s) name).2.inited = true := by
        rw [hpres.1, hinit1]
      have e2 : get_logger (getLoggerI (initLM 20 [] s) name).2 name =
          getLoggerI (getLoggerI (initLM 20 [] s) name).2 name := by
        unfold get_logger
        rw [hinit]
        rfl
      have e3 : getLoggerI (getLoggerI (initLM 20 [] s) name).2 name =
          (rootLoggerName ++ "." ++ name, (getLoggerI (initLM 20 [] s) name).2) :=
        getLoggerI_cached _ _ (getLoggerI_mem (initLM 20 [] s) name)
      refine ⟨?_, ?_, ?_⟩
      · rw [e1, e2, e3, getLoggerI_fst]
      · rw [e1, e2, e3]
      · intro _ _
        rw [e1]
        exact ⟨hinit, by rw [hpres.2.2.1, hdef1], by rw [hpres.2.2.2, hcl1]⟩
    · have hd' : s.logDirOk = false := by
        cases hv : s.logDirOk
        · rfl
        · exact absurd hv hd
      have e1 : get_logger s name = ("DisabledLogger", s) := by
        unfold get_logger
        rw [hi', hd']
        rfl
      refine ⟨?_, ?_, ?_⟩
      · rw [e1, e1]
      · rw [e1, e1]
      · intro _ hcontra
        exact absurd hcontra (by rw [hd']; exact Bool.noConfusion)

/-- Witness for C9 at the pristine manager state and the name
`"Compiler"`. -/
theorem C9_witness :
    (get_logger (get_logger ({} : LMState) "Compiler").2 "Compiler").1 =
      (get_logger ({} : LMState) "Compiler").1 ∧
    (get_logger ({} : LMState) "Compiler").2.inited = true :=
  ⟨(C9_get_logger_idempotent {} "Compiler").1,
   ((C9_get_logger_idempotent {} "Compiler").2.2 rfl rfl).1⟩

/-- Looking up the key just stored by `setA` returns the stored value. -/
theorem lookupA_setA_self {κ β : Type} [DecidableEq κ] (k : κ) (v : β) (l : List (κ × β)) :
    lookupA k (setA k v l) = Option.some v := by
  induction l with
  | nil => simp [setA, lookupA]
  | cons p ps ih =>
    unfold setA
    by_cases hp : p.1 = k
    · rw [if_pos hp]
      simp [lookupA]
    · rw [if_neg hp]
      unfold lookupA
      rw [if_neg hp]
      exact ih

/-- `setA` for one key leaves the lookup of any other key unchanged. -/
theorem lookupA_setA_ne {κ β : Type} [DecidableEq κ] {k k' : κ} (v : β)
    (l : List (κ × β)) (h : k' ≠ k) :
    lookupA k (setA k' v l) = lookupA k l := by
  induction l with
  | nil => simp [setA, lookupA, h]
  | cons p ps ih =>
    unfold setA
    by_cases hp : p.1 = k'
    · rw [if_pos hp]
      unfold lookupA
      rw [if_neg h, if_neg (hp ▸ h)]
    · rw [if_neg hp]
      unfold lookupA
      by_cases hk : p.1 = k
      · rw [if_pos hk, if_pos hk]
      · rw [if_neg hk, if_neg hk]
        exact ih

/-- The level-update loops of `set_level` fold `setA` over the cached
logger names guarded by a predicate on the name: the resulting level of a
name is the new level exactly when the name is cached and its guard holds,
and is otherwise unchanged. -/
theorem foldl_guarded_setA_lookup (f : String → Bool) (names : List String)
    (level : Int) (reg : List (String × Int)) (ln : String) :
    lookupA ln (names.foldl (fun r n => if f n then setA n level r else r) reg) =
      if ln ∈ names ∧ f ln = true then Option.some level else lookupA ln reg := by
  induction names generalizing reg with
  | nil => simp
  | cons n t ih =>
    simp only [List.foldl_cons]
    rw [ih]
    by_cases h1 : ln ∈ t ∧ f ln = true
    · rw [if_pos h1, if_pos ⟨List.mem_cons_of_mem n h1.1, h1.2⟩]
    · rw [if_neg h1]
      by_cases h2 : ln = n
      · subst h2
        by_cases hf : f ln = true
        · rw [if_pos hf, if_pos ⟨List.mem_cons_self ln t, hf⟩]
          exact lookupA_setA_self ln level reg
        · rw [if_neg (by simp [hf]), if_neg (by simp [hf])]
      · have hcond : ¬(ln ∈ n :: t ∧ f ln = true) := by
          intro hc
          rcases List.mem_cons.mp hc.1 with hx | hx
          · exact h2 hx
          · exact h1 ⟨hx, hc.2⟩
        rw [if_neg hcond]
        by_cases hf : f n = true
        · rw [if_pos hf]
          exact lookupA_setA_ne level reg (Ne.symm h2)
        · rw [if_neg hf]

/-- Manager state after `initialize(default_level=20,
component_levels={"Compiler": 10})` from scratch. -/
def lmAfterInit : LMState :=
  initLM 20 [("Compiler", 10)] {}

/-- ... then `get_logger("Compiler.Validator")`: the sub-component logger is
created at the Compiler component level 10. -/
def lmWithSubLogger : LMState :=
  (get_logger lmAfterInit "Compiler.Validator").2

/-- ... then `set_level(30)` with no component name. -/
def lmAfterDefaultChange : LMState :=
  set_level 30 Option.none lmWithSubLogger

/-- Counterexample to C10 as stated: the previously created logger
`NetworkSystem.Compiler.Validator`, whose base component `Compiler` has the
explicitly set component-specific level 10, does not keep that level after
the default level changes to 30 — `set_level` keys the preservation check
on the last name segment (`Validator`), so the sub-logger is reset to 30
while `NetworkSystem.Compiler` itself keeps 10. -/
theorem C10_counterexample :
    lookupA "NetworkSystem.Compiler.Validator" lmWithSubLogger.registryLevels =
      Option.some 10 ∧
    lookupA "Compiler" lmWithSubLogger.componentLevels = Option.some 10 ∧
    lmWithSubLogger.inited = true ∧
    lookupA "NetworkSystem.Compiler.Validator" lmAfterDefaultChange.registryLevels =
      Option.some 30 ∧
    lookupA "NetworkSystem.Compiler" lmAfterDefaultChange.registryLevels =
      Option.some 10 ∧
    lookupA "Compiler" lmAfterDefaultChange.componentLevels = Option.some 10 := by
  decide

/-- C10 amended: after `set_level` with a level and no component name on an
initialized manager, the default level becomes the new level, the
component-level table is unchanged, and a previously created logger under
the root keeps its level exactly when the *last* segment of its dotted name
is a key of the component-level table; every other such logger — including
every sub-component logger (e.g. `Compiler.Validator`), even when its base
component has an explicit level — is set to the new level. -/
theorem C10_set_level_default_amended (lvl : Int) (s : LMState)
    (hs : s.inited = true) (ln : String) (hmem : ln ∈ s.loggers)
    (hstart : strStarts ln (rootLoggerName ++ ".") = true) :
    lookupA ln (set_level lvl Option.none s).registryLevels =
      (if (lookupA (lastSegment ln) s.componentLevels).isSome = true
       then lookupA ln s.registryLevels
       else Option.some lvl) ∧
    (set_level lvl Option.none s).defaultLevel = lvl ∧
    (set_level lvl Option.none s).componentLevels = s.componentLevels := by
  have hroot : ln ≠ rootLoggerName := by
    intro he
    rw [he] at hstart
    exact absurd hstart (by decide)
  have hsl : set_level lvl Option.none s = setLevelRoot lvl true s := by
    unfold set_level
    rw [hs]
    rfl
  rw [hsl]
  refine ⟨?_, rfl, rfl⟩
  have hb : (setLevelRoot lvl true s).registryLevels =
      s.loggers.foldl
        (fun reg n =>
          if (if strStarts n (rootLoggerName ++ ".") = true
              then (lookupA (lastSegment n) s.componentLevels).isNone
              else decide (n = rootLoggerName)) = true
          then setA n lvl reg else reg)
        (setA rootLoggerName lvl s.registryLevels) := by
    unfold setLevelRoot
    dsimp only
    congr 1
    funext reg n
    by_cases h1 : strStarts n (rootLoggerName ++ ".") = true
    · by_cases h2 : (lookupA (lastSegment n) s.componentLevels).isNone = true
      · simp [h1, h2]
      · simp [h1, h2]
    · by_cases h3 : n = rootLoggerName
      · subst h3
        simp [h1]
      · simp [h1, h3]
  rw [hb, foldl_guarded_setA_lookup]
  cases hopt : lookupA (lastSegment ln) s.componentLevels with
  | some v =>
    have h2 : (if strStarts ln (rootLoggerName ++ ".") = true
               then (Option.some v).isNone
               else decide (ln = rootLoggerName)) = false := by
      rw [if_pos hstart]
      rfl
    rw [h2]
    have hcond : ¬(ln ∈ s.loggers ∧ false = true) := fun hc => Bool.noConfusion hc.2
    rw [if_neg hcond, if_pos (show (Option.some v).isSome = true from rfl)]
    exact lookupA_setA_ne lvl s.registryLevels (Ne.symm hroot)
  | none =>
    have h2 : (if strStarts ln (rootLoggerName ++ ".") = true
               then (Option.none : Option Int).isNone
               else decide (ln = rootLoggerName)) = true := by
      rw [if_pos hstart]
      rfl
    rw [h2]
    rw [if_pos ⟨hmem, rfl⟩, if_neg (by simp)]

/-- An initialized manager state with an explicit Compiler level and a
cached Compiler logger, used to witness the amended C10. -/
def lmTwoLoggers : LMState :=
  { loggers := ["NetworkSystem", "NetworkSystem.Compiler"],
    registryLevels := [("NetworkSystem", 20), ("NetworkSystem.Compiler", 10)],
    componentLevels := [("Compiler", 10)],
    defaultLevel := 20, consoleLevel := 20, inited := true, logDirOk := true }

/-- Witness for the amended C10: the base-component logger
`NetworkSystem.Compiler` (its last segment has an explicit level) keeps its
level under a default-level change. -/
theorem C10_witness :
    lookupA "NetworkSystem.Compiler" (set_level 30 Option.none lmTwoLoggers).registryLevels =
      (if (lookupA (lastSegment "NetworkSystem.Compiler") lmTwoLoggers.componentLevels).isSome = true
       then lookupA "NetworkSystem.Compiler" lmTwoLoggers.registryLevels
       else Option.some 30) ∧
    (set_level 30 Option.none lmTwoLoggers).defaultLevel = 30 ∧
    (set_level 30 Option.none lmTwoLoggers).componentLevels = lmTwoLoggers.componentLevels :=
  C10_set_level_default_amended 30 lmTwoLoggers (by decide) "NetworkSystem.Compiler"
    (by decide) (by decide)
